import Mathlib

/-!
Verification of the credential-caching client and webhook fan-out
subsystem of the Elec-zoho backend (server.js, index.js, part_000).

The JavaScript is embedded shallowly: network interactions are
parameters (the status or transport error each destination produces,
the result of the token exchange, the result of the validation probe),
and every route/helper becomes a pure Lean function over them.
-/

namespace ElecZoho

/-! ## Fan-out dispatcher (webhook delivery) -/

/-- Network-level outcome of one webhook POST: either the destination
answered with an HTTP status, or the transport failed (connection
error / timeout). -/
inductive NetOutcome where
  | response (status : Nat)
  | transportErr (msg : String)
deriving DecidableEq

/-- What one axios promise settles to, as observed through
Promise.allSettled: fulfilled with a response, or rejected, either with
an axios error that carries the response status (validateStatus said
no) or with a transport error message. -/
inductive Settled where
  | fulfilled (status : Nat)
  | rejectedStatus (status : Nat)
  | rejectedTransport (msg : String)
deriving DecidableEq

/-- axios resolves a received response iff validateStatus accepts its
status; otherwise the promise rejects with an error carrying that
status. A transport failure always rejects. -/
def axiosSettle (validateStatus : Nat → Bool) : NetOutcome → Settled
  | .response s => if validateStatus s then .fulfilled s else .rejectedStatus s
  | .transportErr m => .rejectedTransport m

/-- validateStatus passed by the fan-out routes (server.js /api/claims
second variant and /api/vendors, index.js, part_000):
status greater or equal 200 and status less than 500. -/
def fanoutValidateStatus (s : Nat) : Bool := 200 ≤ s && s < 500

/-- axios default validateStatus, in effect in the first /api/claims
variant (server.js lines 45-91), which passes none: 2xx only. -/
def defaultValidateStatus (s : Nat) : Bool := 200 ≤ s && s < 300

/-- The per-result success test of the aggregation loops:
result.status is fulfilled and result.value.status less than 400. -/
def isSuccess : Settled → Bool
  | .fulfilled s => s < 400
  | _ => false

/-- Success test of the first /api/claims variant:
results.filter r.status fulfilled (no status re-check). -/
def isFulfilled : Settled → Bool
  | .fulfilled _ => true
  | _ => false

/-- Fan-out of the validateStatus /api/claims routes (server.js second
variant, index.js): each (url, outcome) pair settles independently,
Promise.allSettled collects every settlement, and the forEach counts
successes and failures. Returns (successCount, failureCount). -/
def dispatchClaims (targets : List (String × NetOutcome)) : Nat × Nat :=
  let results := targets.map (fun t => axiosSettle fanoutValidateStatus t.2)
  (results.countP isSuccess, results.countP (fun r => !(isSuccess r)))

/-- Fan-out of the first /api/claims variant (no validateStatus): the
report is just the count of fulfilled results (webhookSuccess). -/
def dispatchClaimsV1 (targets : List (String × NetOutcome)) : Nat :=
  (targets.map (fun t => axiosSettle defaultValidateStatus t.2)).countP isFulfilled

/-- One entry of the /api/vendors webhookResults.details list: on
success the push carries the status code, on failure an error
message. -/
structure VendorDetail where
  url : String
  status : String
  statusCode : Option Nat
  error : Option String
deriving DecidableEq

/-- The aggregated webhookResults object of /api/vendors. -/
structure DeliveryReport where
  successCount : Nat
  failureCount : Nat
  details : List VendorDetail
deriving DecidableEq

/-- The detail entry the /api/vendors forEach pushes for one target.
A fulfilled sub-400 result pushes a success entry with its status code.
Every other result pushes a failed entry whose error field is
result.reason.message when the promise rejected (axios formats a
refused status as "Request failed with status code N") and the literal
"Unknown error" when the result was fulfilled (reason is undefined for
a fulfilled 4xx result). -/
def classifyVendor (url : String) (o : NetOutcome) : VendorDetail :=
  match axiosSettle fanoutValidateStatus o with
  | .fulfilled s =>
      if s < 400 then ⟨url, "success", some s, none⟩
      else ⟨url, "failed", none, some "Unknown error"⟩
  | .rejectedStatus s =>
      ⟨url, "failed", none, some ("Request failed with status code " ++ toString s)⟩
  | .rejectedTransport m => ⟨url, "failed", none, some m⟩

/-- The body of the /api/vendors results.forEach, acting on the
accumulated webhookResults. -/
def vendorStep (acc : DeliveryReport) (t : String × NetOutcome) : DeliveryReport :=
  match axiosSettle fanoutValidateStatus t.2 with
  | .fulfilled s =>
      if s < 400 then
        ⟨acc.successCount + 1, acc.failureCount,
          acc.details ++ [⟨t.1, "success", some s, none⟩]⟩
      else
        ⟨acc.successCount, acc.failureCount + 1,
          acc.details ++ [⟨t.1, "failed", none, some "Unknown error"⟩]⟩
  | .rejectedStatus s =>
      ⟨acc.successCount, acc.failureCount + 1,
        acc.details ++ [⟨t.1, "failed", none,
          some ("Request failed with status code " ++ toString s)⟩]⟩
  | .rejectedTransport m =>
      ⟨acc.successCount, acc.failureCount + 1,
        acc.details ++ [⟨t.1, "failed", none, some m⟩]⟩

/-- /api/vendors fan-out (server.js lines 971-1004): allSettled over all
targets, then the forEach fold starting from the empty report. -/
def dispatchVendors (targets : List (String × NetOutcome)) : DeliveryReport :=
  targets.foldl vendorStep ⟨0, 0, []⟩

/-- /api/claims of the validateStatus variants (server.js lines 396-405,
index.js, part_000): an empty webhook list short-circuits with the
HTTP 500 body "No webhook URLs configured"; otherwise the fan-out
runs. -/
def claimsRoute (targets : List (String × NetOutcome)) :
    Except String (Nat × Nat) :=
  if targets.length = 0 then .error "No webhook URLs configured"
  else .ok (dispatchClaims targets)

/-- /api/vendors (server.js lines 963-1004): an empty webhook list skips
the fan-out, leaving webhookResults at zero counts and empty details,
and the route still responds with success. -/
def vendorsRoute (targets : List (String × NetOutcome)) : DeliveryReport :=
  if targets.length > 0 then dispatchVendors targets else ⟨0, 0, []⟩

/-- First /api/claims variant (server.js lines 45-91): no empty-list
check at all; the possibly-empty list is dispatched and the fulfilled
count reported. -/
def claimsV1Route (targets : List (String × NetOutcome)) : Nat :=
  dispatchClaimsV1 targets

/-! ## Token cache (getZohoAccessToken) -/

/-- The two module-level variables of both server variants:
let zohoAccessToken = null; let tokenExpiryTime = null.
Times are epoch milliseconds. -/
structure TokenState where
  zohoAccessToken : Option String
  tokenExpiryTime : Option Int
deriving DecidableEq

/-- JSON body of a 2xx token-endpoint response: data.access_token
(none when the field is absent) and whatever expiry datum the upstream
may include; the code never reads the latter. -/
structure TokenBody where
  access_token : Option String
  expires_in : Option Int
deriving DecidableEq

/-- Result of the axios.post token exchange. axios default
validateStatus is in effect, so success means a 2xx response with its
JSON body; netErr covers a network failure, a timeout, and a non-2xx
response, carrying error.message. -/
inductive ExchangeResult where
  | success (body : TokenBody)
  | netErr (message : String)
deriving DecidableEq

/-- JS truthiness of the zohoAccessToken variable: null (none) and the
empty string are falsy. -/
def strTruthy : Option String → Bool
  | none => false
  | some s => s ≠ ""

/-- JS truthiness of the tokenExpiryTime variable: null (none) and 0
are falsy. -/
def numTruthy : Option Int → Bool
  | none => false
  | some n => n ≠ 0

/-- The cache-hit test of both variants:
zohoAccessToken and tokenExpiryTime and now less than tokenExpiryTime. -/
def cacheLive (st : TokenState) (now : Int) : Bool :=
  strTruthy st.zohoAccessToken && numTruthy st.tokenExpiryTime
    && decide (now < st.tokenExpiryTime.getD 0)

deriving instance DecidableEq for Except

/-- Outcome of one server.js getZohoAccessToken call: the module state
afterwards, the returned token or the thrown Error message, and how
many exchange POSTs and probe GETs were performed. -/
structure AcquireOutcome where
  state : TokenState
  result : Except String String
  exchanges : Nat
  probes : Nat
deriving DecidableEq

/-- The try/catch refresh section of server.js getZohoAccessToken
(lines 172-214): one exchange POST; a body whose access_token is
missing (or empty, the check is JS falsiness) throws
"No access token in response" inside the try; on success both module
variables are overwritten, with expiry now + 55 minutes; the catch
clears both variables and rethrows
"Failed to get Zoho access token: " plus error.message. -/
def serverRefresh (now : Int) (exch : ExchangeResult) :
    TokenState × Except String String :=
  match exch with
  | .netErr msg =>
      (⟨none, none⟩, .error ("Failed to get Zoho access token: " ++ msg))
  | .success body =>
      match body.access_token with
      | none =>
          (⟨none, none⟩,
            .error "Failed to get Zoho access token: No access token in response")
      | some t =>
          if t = "" then
            (⟨none, none⟩,
              .error "Failed to get Zoho access token: No access token in response")
          else
            (⟨some t, some (now + 55 * 60 * 1000)⟩, .ok t)

/-- server.js getZohoAccessToken (lines 154-214). now is Date.now() at
entry; probeOk is what validateZohoToken returns for the cached token
(status 200 and no transport error); exch is how the exchange would
settle if performed. A live cached token that passes the probe is
returned with no exchange; a live token that fails the probe is
cleared and the refresh runs; otherwise the refresh runs directly. -/
def serverAcquire (st : TokenState) (now : Int) (probeOk : Bool)
    (exch : ExchangeResult) : AcquireOutcome :=
  if cacheLive st now then
    if probeOk then
      ⟨st, .ok (st.zohoAccessToken.getD ""), 0, 1⟩
    else
      let r := serverRefresh now exch
      ⟨r.1, r.2, 1, 1⟩
  else
    let r := serverRefresh now exch
    ⟨r.1, r.2, 1, 0⟩

/-- Outcome of one index.js getZohoAccessToken call; the function
returns the zohoAccessToken variable itself, so the happy path yields
an Option String (undefined when the exchange body had no
access_token). -/
structure IndexAcquireOutcome where
  state : TokenState
  result : Except String (Option String)
  exchanges : Nat
deriving DecidableEq

/-- index.js getZohoAccessToken (lines 41-72): no probe, no try/catch
and no access_token presence check. A live cached token is returned
as-is; on an axios error the module state is untouched and the error
propagates; on a 2xx response data.access_token is stored verbatim
(undefined when absent) and tokenExpiryTime is set to now + 55
minutes. -/
def indexAcquire (st : TokenState) (now : Int) (exch : ExchangeResult) :
    IndexAcquireOutcome :=
  if cacheLive st now then
    ⟨st, .ok st.zohoAccessToken, 0⟩
  else
    match exch with
    | .netErr msg => ⟨st, .error msg, 1⟩
    | .success body =>
        ⟨⟨body.access_token, some (now + 55 * 60 * 1000)⟩,
          .ok body.access_token, 1⟩

/-- Whether the exchange settles in a way the server variant treats as
failure: axios rejection, or a 2xx body whose access_token is missing
or empty (JS-falsy). -/
def exchangeFails : ExchangeResult → Bool
  | .netErr _ => true
  | .success body =>
      match body.access_token with
      | none => true
      | some t => t = ""

/-- The upstream information the rethrown error message carries:
error.message of the axios failure, or the in-try throw message when
the body lacked an access token. -/
def exchangeFailMsg : ExchangeResult → String
  | .netErr msg => msg
  | .success _ => "No access token in response"

/-! ## Cash Slip token generation (generateToken) -/

/-- The fields of a JS Date the token generators read. month is
0-based, as returned by getMonth. -/
structure JSDate where
  year : Nat
  month : Nat
  day : Nat
  hours : Nat
  minutes : Nat
  seconds : Nat
deriving DecidableEq

/-- The pad helper: n.toString().padStart(2, "0"). -/
def pad2 (n : Nat) : String :=
  let s := toString n
  if s.length < 2 then String.mk (List.replicate (2 - s.length) '0') ++ s
  else s

/-- generateToken (index.js lines 652-665, server.js lines 235-247):
"CS" plus the last two characters of the year string plus padded
month+1, day, hours, minutes, seconds. -/
def generateToken (now : JSDate) : String :=
  let ys := toString now.year
  "CS" ++ ys.drop (ys.length - 2) ++ pad2 (now.month + 1) ++ pad2 now.day
    ++ pad2 now.hours ++ pad2 now.minutes ++ pad2 now.seconds

/-- index.js line 667: const tokenNumber = generateToken(), evaluated
once when the module loads. -/
def index_tokenNumber (loadTime : JSDate) : String := generateToken loadTime

/-- The Name field of the /api/sales/create payload in index.js
(line 723): the module-level tokenNumber constant, whatever the
request time is. -/
def indexSalesName (loadTime _requestTime : JSDate) : String :=
  index_tokenNumber loadTime

/-- The Name field of the /api/sales/create payload in server.js
(line 1359): generateToken() evaluated at request time. -/
def serverSalesName (requestTime : JSDate) : String :=
  generateToken requestTime

/-! ## Boolean coercion helpers (toYesNo, toBoolean, toYesNoNumber) -/

/-- The JSON-shaped values the coercion helpers are compared against
with strict equality. -/
inductive JSValue where
  | bool (b : Bool)
  | num (n : Int)
  | str (s : String)
  | null
  | undef
deriving DecidableEq

/-- toYesNo (server.js lines 290-303, and inline in index.js): "Yes"
when the value strictly equals one of true, "true", 1, "1", "Yes",
"yes", "on"; otherwise "No". -/
def toYesNo (v : JSValue) : String :=
  if v = .bool true ∨ v = .str "true" ∨ v = .num 1 ∨ v = .str "1"
      ∨ v = .str "Yes" ∨ v = .str "yes" ∨ v = .str "on" then "Yes"
  else "No"

/-- toBoolean (server.js lines 305-318): true on the same literal set,
false otherwise. -/
def toBoolean (v : JSValue) : Bool :=
  if v = .bool true ∨ v = .str "true" ∨ v = .num 1 ∨ v = .str "1"
      ∨ v = .str "Yes" ∨ v = .str "yes" ∨ v = .str "on" then true
  else false

/-- toYesNoNumber (server.js lines 320-333): 1 on the same literal set,
0 otherwise. -/
def toYesNoNumber (v : JSValue) : Nat :=
  if v = .bool true ∨ v = .str "true" ∨ v = .num 1 ∨ v = .str "1"
      ∨ v = .str "Yes" ∨ v = .str "yes" ∨ v = .str "on" then 1
  else 0

/-! ## Helper lemmas -/

lemma countP_not_add {α : Type} (p : α → Bool) (l : List α) :
    l.countP p + l.countP (fun a => !(p a)) = l.length := by
  induction l with
  | nil => simp
  | cons x xs ih => cases h : p x <;> simp [List.countP_cons, h] <;> omega

lemma vendorStep_spec (acc : DeliveryReport) (t : String × NetOutcome) :
    vendorStep acc t =
      ⟨acc.successCount
          + (if isSuccess (axiosSettle fanoutValidateStatus t.2) then 1 else 0),
        acc.failureCount
          + (if isSuccess (axiosSettle fanoutValidateStatus t.2) then 0 else 1),
        acc.details ++ [classifyVendor t.1 t.2]⟩ := by
  cases ht : axiosSettle fanoutValidateStatus t.2 with
  | fulfilled s =>
      by_cases hs : s < 400 <;>
        simp [vendorStep, classifyVendor, isSuccess, ht, hs]
  | rejectedStatus s => simp [vendorStep, classifyVendor, isSuccess, ht]
  | rejectedTransport m => simp [vendorStep, classifyVendor, isSuccess, ht]

lemma vendors_foldl (l : List (String × NetOutcome)) :
    ∀ acc : DeliveryReport,
      (l.foldl vendorStep acc).successCount + (l.foldl vendorStep acc).failureCount
          = acc.successCount + acc.failureCount + l.length ∧
      (l.foldl vendorStep acc).details
          = acc.details ++ l.map (fun t => classifyVendor t.1 t.2) := by
  induction l with
  | nil => intro acc; simp
  | cons x xs ih =>
      intro acc
      rw [List.foldl_cons, vendorStep_spec]
      obtain ⟨h1, h2⟩ :=
        ih ⟨acc.successCount
              + (if isSuccess (axiosSettle fanoutValidateStatus x.2) then 1 else 0),
            acc.failureCount
              + (if isSuccess (axiosSettle fanoutValidateStatus x.2) then 0 else 1),
            acc.details ++ [classifyVendor x.1 x.2]⟩
      constructor
      · rw [h1]; by_cases hs : isSuccess (axiosSettle fanoutValidateStatus x.2) <;>
          simp [hs] <;> omega
      · rw [h2]; simp

/-! ## Claim theorems -/

/-- C3: dispatch completes only after every per-target outcome is
resolved (the report covers all targets, successCount plus
failureCount equals the number of targets), and each target's reported
entry is a function of that target's own outcome alone, so one
target's transport error, timeout, or error status cannot affect any
other target's reported outcome. -/
theorem fanout_completion_and_isolation (targets : List (String × NetOutcome)) :
    (dispatchClaims targets).1 + (dispatchClaims targets).2 = targets.length ∧
    (dispatchVendors targets).successCount + (dispatchVendors targets).failureCount
        = targets.length ∧
    (dispatchVendors targets).details
        = targets.map (fun t => classifyVendor t.1 t.2) := by
  refine ⟨?_, ?_, ?_⟩
  · have h := countP_not_add isSuccess
      (targets.map (fun t => axiosSettle fanoutValidateStatus t.2))
    simpa [dispatchClaims] using h
  · have h := (vendors_foldl targets ⟨0, 0, []⟩).1
    simpa [dispatchVendors] using h
  · have h := (vendors_foldl targets ⟨0, 0, []⟩).2
    simpa [dispatchVendors] using h

/-- C2 counterexample: the claim says a target is counted as a success
if and only if its response status is strictly below 400, but in the
first /api/claims variant a 302 response rejects (axios default
validateStatus is 2xx-only) and is not counted, and in the
validateStatus variants a sub-200 status (here 150) also rejects and is
counted as a failure, although both statuses are strictly below 400. -/
theorem fanout_accept_policy_counterexample :
    dispatchClaimsV1 [("http://a", .response 302)] = 0 ∧ (302 : Nat) < 400 ∧
    (dispatchClaims [("http://b", .response 150)]).1 = 0 ∧ (150 : Nat) < 400 := by
  decide

/-- C2 (amended): in the validateStatus fan-outs a target is a success
exactly when its response status lies in [200,400); a 404 is recorded
as an individual failure detail entry (the response is inspected, not
raised); a 500 is counted as a failure; in the first /api/claims
variant (axios default validateStatus) a target is a success exactly
when its status lies in [200,300). -/
theorem fanout_accept_policy (s : Nat) (url : String) :
    (isSuccess (axiosSettle fanoutValidateStatus (.response s)) = true
        ↔ 200 ≤ s ∧ s < 400) ∧
    (isFulfilled (axiosSettle defaultValidateStatus (.response s)) = true
        ↔ 200 ≤ s ∧ s < 300) ∧
    (classifyVendor url (.response 404)).status = "failed" ∧
    isSuccess (axiosSettle fanoutValidateStatus (.response 404)) = false ∧
    isSuccess (axiosSettle fanoutValidateStatus (.response 500)) = false := by
  refine ⟨?_, ?_, rfl, by decide, by decide⟩
  · simp only [axiosSettle, fanoutValidateStatus]
    split_ifs with h <;> simp [isSuccess] <;> simp at h <;> omega
  · simp only [axiosSettle, defaultValidateStatus]
    split_ifs with h <;> simp [isFulfilled] <;> simp at h <;> omega

/-- C8 counterexample: the program does not pick one empty-list
behavior for every call site: the /api/claims route (validateStatus
variants) fails with the configuration error while /api/vendors
returns a zero-success/zero-failure report and still succeeds. -/
theorem empty_targets_counterexample :
    claimsRoute [] = .error "No webhook URLs configured" ∧
    vendorsRoute [] = ⟨0, 0, []⟩ :=
  ⟨rfl, rfl⟩

/-- C8 (amended): each call site individually settles on one of the two
contract behaviors, but the choice is not uniform across the program:
the /api/claims handlers of server.js (second variant), index.js and
part_000 fail with "No webhook URLs configured", while /api/vendors
and the first /api/claims variant return a report with zero successes
and zero failures (and empty details where details exist). -/
theorem empty_targets_per_site :
    claimsRoute [] = .error "No webhook URLs configured" ∧
    vendorsRoute [] = ⟨0, 0, []⟩ ∧
    claimsV1Route [] = 0 := by
  refine ⟨rfl, rfl, rfl⟩

/-- C1: a successful exchange performed at time now remembers expiry
now + 55 minutes, whatever expiry datum the upstream body carried
(body.expires_in is unconstrained); a later call strictly before that
expiry (with a passing probe in the server variant) reuses the cached
credential with no exchange; a call at or after that expiry performs a
fresh exchange, whatever the probe would say. Both getZohoAccessToken
variants are covered. -/
theorem token_expiry_policy (st : TokenState) (now : Int) (hnow : 0 ≤ now)
    (probe : Bool) (body : TokenBody) (t : String)
    (hat : body.access_token = some t) (ht : t ≠ "") :
    ((serverAcquire st now probe (.success body)).exchanges = 1 →
      (serverAcquire st now probe (.success body)).state
        = ⟨some t, some (now + 55 * 60 * 1000)⟩) ∧
    ((indexAcquire st now (.success body)).exchanges = 1 →
      (indexAcquire st now (.success body)).state
        = ⟨some t, some (now + 55 * 60 * 1000)⟩) ∧
    (∀ now2 exch2, now2 < now + 55 * 60 * 1000 →
      (serverAcquire ⟨some t, some (now + 55 * 60 * 1000)⟩ now2 true exch2).exchanges
          = 0 ∧
      (serverAcquire ⟨some t, some (now + 55 * 60 * 1000)⟩ now2 true exch2).result
          = .ok t ∧
      (indexAcquire ⟨some t, some (now + 55 * 60 * 1000)⟩ now2 exch2).exchanges = 0 ∧
      (indexAcquire ⟨some t, some (now + 55 * 60 * 1000)⟩ now2 exch2).result
          = .ok (some t)) ∧
    (∀ now2 probe2 exch2, now + 55 * 60 * 1000 ≤ now2 →
      (serverAcquire ⟨some t, some (now + 55 * 60 * 1000)⟩ now2 probe2 exch2).exchanges
          = 1 ∧
      (indexAcquire ⟨some t, some (now + 55 * 60 * 1000)⟩ now2 exch2).exchanges = 1) := by
  have hne : (now + 55 * 60 * 1000 : Int) ≠ 0 := by omega
  refine ⟨?_, ?_, ?_, ?_⟩
  · cases hc : cacheLive st now <;> cases probe <;>
      simp [serverAcquire, serverRefresh, hc, hat, ht]
  · cases hc : cacheLive st now <;> simp [indexAcquire, hc, hat]
  · intro now2 exch2 hlt
    have hc : cacheLive ⟨some t, some (now + 3300000)⟩ now2 = true := by
      simp [cacheLive, strTruthy, numTruthy, ht]
      omega
    simp [serverAcquire, indexAcquire, hc]
  · intro now2 probe2 exch2 hge
    have hc : cacheLive ⟨some t, some (now + 3300000)⟩ now2 = false := by
      simp [cacheLive, strTruthy, numTruthy]
      omega
    cases exch2 <;> simp [serverAcquire, indexAcquire, hc]

/-- C1 witness: concrete run of the policy: a fresh acquisition at time
0 stores expiry 3300000 (55 minutes); a call at 3299999 with a passing
probe performs no exchange; a call at 3300000 performs one. -/
theorem token_expiry_policy_witness :
    (serverAcquire ⟨none, none⟩ 0 true (.success ⟨some "tok", some 3600⟩)).state
        = ⟨some "tok", some 3300000⟩ ∧
    (serverAcquire ⟨some "tok", some 3300000⟩ 3299999 true (.netErr "boom")).exchanges
        = 0 ∧
    (serverAcquire ⟨some "tok", some 3300000⟩ 3300000 false (.netErr "boom")).exchanges
        = 1 := by
  have h := token_expiry_policy ⟨none, none⟩ 0 (by decide) true
    ⟨some "tok", some 3600⟩ "tok" rfl (by decide)
  refine ⟨?_, ?_, ?_⟩
  · have h1 := h.1 (by decide)
    rw [h1]; decide
  · exact (h.2.2.1 3299999 (.netErr "boom") (by decide)).1
  · exact (h.2.2.2 3300000 false (.netErr "boom") (by decide)).1

/-- C4: whenever an exchange is actually performed and fails (axios
error, or a 2xx body with a missing or empty access_token), the
server.js getZohoAccessToken clears both module variables, returning
the cache to Empty, and throws an error whose message carries the
upstream failure information; it never resolves with a token. -/
theorem exchange_failure_clears_cache (st : TokenState) (now : Int)
    (probe : Bool) (exch : ExchangeResult) (hf : exchangeFails exch = true) :
    (serverAcquire st now probe exch).exchanges = 1 →
      (serverAcquire st now probe exch).state = ⟨none, none⟩ ∧
      (serverAcquire st now probe exch).result
        = .error ("Failed to get Zoho access token: " ++ exchangeFailMsg exch) ∧
      ∀ t2, (serverAcquire st now probe exch).result ≠ .ok t2 := by
  intro hex
  have hrefresh : (serverRefresh now exch).1 = ⟨none, none⟩ ∧
      (serverRefresh now exch).2
        = .error ("Failed to get Zoho access token: " ++ exchangeFailMsg exch) := by
    cases exch with
    | netErr msg => simp [serverRefresh, exchangeFailMsg]
    | success body =>
        cases hab : body.access_token with
        | none => simp [serverRefresh, exchangeFailMsg, hab]
        | some t2 =>
            have ht2 : t2 = "" := by simpa [exchangeFails, hab] using hf
            simp [serverRefresh, exchangeFailMsg, hab, ht2]
  by_cases hc : cacheLive st now = true
  · by_cases hp : probe = true
    · simp [serverAcquire, hc, hp] at hex
    · simp [serverAcquire, hc, hp, hrefresh.1, hrefresh.2]
  · simp [serverAcquire, hc, hrefresh.1, hrefresh.2]

/-- C4 witness: a network failure of the exchange at a concrete input
leaves an empty cache and the wrapped error. -/
theorem exchange_failure_clears_cache_witness :
    (serverAcquire ⟨none, none⟩ 0 true (.netErr "oops")).state = ⟨none, none⟩ ∧
    (serverAcquire ⟨none, none⟩ 0 true (.netErr "oops")).result
      = .error "Failed to get Zoho access token: oops" := by
  have h := exchange_failure_clears_cache ⟨none, none⟩ 0 true (.netErr "oops")
    rfl (by decide)
  refine ⟨h.1, ?_⟩
  rw [h.2.1]; decide

/-- C5: when a live credential is cached (the cache-hit test of the
code holds at the call time) and the validation probe succeeds, the
server.js acquire performs no token exchange and returns the cached
credential with the module state untouched. -/
theorem probe_success_short_circuit (st : TokenState) (now : Int)
    (exch : ExchangeResult) (t : String) (hc : cacheLive st now = true)
    (htok : st.zohoAccessToken = some t) :
    (serverAcquire st now true exch).exchanges = 0 ∧
    (serverAcquire st now true exch).state = st ∧
    (serverAcquire st now true exch).result = .ok t := by
  simp [serverAcquire, hc, htok]

/-- C5 witness: concrete cache hit with a passing probe: no exchange,
unchanged state, cached token returned. -/
theorem probe_success_short_circuit_witness :
    (serverAcquire ⟨some "tok", some 10⟩ 5 true (.netErr "x")).exchanges = 0 ∧
    (serverAcquire ⟨some "tok", some 10⟩ 5 true (.netErr "x")).state
        = ⟨some "tok", some 10⟩ ∧
    (serverAcquire ⟨some "tok", some 10⟩ 5 true (.netErr "x")).result = .ok "tok" :=
  probe_success_short_circuit ⟨some "tok", some 10⟩ 5 (.netErr "x") "tok"
    (by decide) rfl

/-- C6: when a live credential is cached but the validation probe
fails, that same acquire call performs exactly one exchange; if the
exchange yields a body with a non-empty access_token the new
credential is returned and stored with expiry now + 55 minutes, and on
a failing exchange the discarded cache stays empty. -/
theorem probe_failure_forces_refresh (st : TokenState) (now : Int)
    (exch : ExchangeResult) (hc : cacheLive st now = true) :
    (serverAcquire st now false exch).exchanges = 1 ∧
    (∀ body t2, exch = .success body → body.access_token = some t2 → t2 ≠ "" →
      (serverAcquire st now false exch).result = .ok t2 ∧
      (serverAcquire st now false exch).state
        = ⟨some t2, some (now + 55 * 60 * 1000)⟩) ∧
    (exchangeFails exch = true →
      (serverAcquire st now false exch).state = ⟨none, none⟩) := by
  refine ⟨by simp [serverAcquire, hc], ?_, ?_⟩
  · intro body t2 hbody hab ht2
    subst hbody
    simp [serverAcquire, serverRefresh, hc, hab, ht2]
  · intro hf
    cases exch with
    | netErr msg => simp [serverAcquire, serverRefresh, hc]
    | success body =>
        cases hab : body.access_token with
        | none => simp [serverAcquire, serverRefresh, hc, hab]
        | some t2 =>
            have ht2 : t2 = "" := by simpa [exchangeFails, hab] using hf
            simp [serverAcquire, serverRefresh, hc, hab, ht2]

/-- C6 witness: concrete probe failure on a live cache: one exchange,
the new token returned and stored with the recomputed expiry. -/
theorem probe_failure_forces_refresh_witness :
    (serverAcquire ⟨some "old", some 10⟩ 5 false
        (.success ⟨some "new", none⟩)).exchanges = 1 ∧
    (serverAcquire ⟨some "old", some 10⟩ 5 false
        (.success ⟨some "new", none⟩)).result = .ok "new" ∧
    (serverAcquire ⟨some "old", some 10⟩ 5 false
        (.success ⟨some "new", none⟩)).state = ⟨some "new", some 3300005⟩ := by
  have h := probe_failure_forces_refresh ⟨some "old", some 10⟩ 5
    (.success ⟨some "new", none⟩) (by decide)
  have h2 := h.2.1 ⟨some "new", none⟩ "new" rfl rfl (by decide)
  refine ⟨h.1, h2.1, ?_⟩
  rw [h2.2]; decide

/-- C7 (code bug witness): in index.js, an exchange whose 2xx body
lacks the access_token field stores a torn pair: zohoAccessToken
becomes undefined while tokenExpiryTime is set to now + 55 minutes, so
the next observer sees an expiry with a missing token — the invariant
the claim states, and which server.js enforces by throwing on a
missing access_token, is violated by this variant. -/
theorem index_missing_token_torn_pair :
    (indexAcquire ⟨none, none⟩ 0 (.success ⟨none, some 3600⟩)).state.zohoAccessToken
        = none ∧
    (indexAcquire ⟨none, none⟩ 0 (.success ⟨none, some 3600⟩)).state.tokenExpiryTime
        = some 3300000 := by
  decide

/-- C9: in index.js the Cash Slip Name is the module-level tokenNumber
constant, generated once at load time, so every /api/sales/create
request in one process lifetime carries the identical Name whatever
its request time; in server.js the Name is generated per request and
two requests one second apart get different Names. -/
theorem sales_name_constancy :
    (∀ load t1 t2 : JSDate, indexSalesName load t1 = indexSalesName load t2) ∧
    serverSalesName ⟨2025, 0, 1, 0, 0, 0⟩ ≠ serverSalesName ⟨2025, 0, 1, 0, 0, 1⟩ := by
  constructor
  · intro load t1 t2; rfl
  · decide

/-- C10: the three coercion helpers agree on one truthy-literal set:
toYesNo returns "Yes" exactly when toBoolean returns true exactly when
toYesNoNumber returns 1, and that happens exactly on the literals
true, "true", 1, "1", "Yes", "yes", "on"; each helper is total,
returning the falsy projection ("No", false, 0) on every other
value. -/
theorem boolean_coercion_agreement (v : JSValue) :
    (toYesNo v = "Yes" ↔ toBoolean v = true) ∧
    (toBoolean v = true ↔ toYesNoNumber v = 1) ∧
    (toBoolean v = true ↔
      (v = .bool true ∨ v = .str "true" ∨ v = .num 1 ∨ v = .str "1"
        ∨ v = .str "Yes" ∨ v = .str "yes" ∨ v = .str "on")) ∧
    (toYesNo v = "No" ↔ toBoolean v = false) ∧
    (toYesNoNumber v = 0 ↔ toBoolean v = false) ∧
    (toYesNo v = "Yes" ∨ toYesNo v = "No") ∧
    (toYesNoNumber v = 1 ∨ toYesNoNumber v = 0) := by
  by_cases h : v = .bool true ∨ v = .str "true" ∨ v = .num 1 ∨ v = .str "1"
      ∨ v = .str "Yes" ∨ v = .str "yes" ∨ v = .str "on" <;>
    simp [toYesNo, toBoolean, toYesNoNumber, h]

end ElecZoho
